/-
Verification of the Cape Coast Delivery API core (src/main.py) against its
specification.

Embedding conventions:
* Money amounts are exact decimals, modelled as rationals (`ℚ`); the source's
  `round(x, 2)` (Python banker's rounding to two decimals) is `round2`, built
  on round-half-to-even.
* Timestamps (`now_ts()`) are integers passed in explicitly as a `now`
  parameter.
* Generated identifiers (`uuid4`-based order / driver / user ids) are passed
  in explicitly as parameters.
* Python dict records with optionally-present keys become structures with
  `Option` fields; the in-memory stores `ORDERS_DB` / `DRIVERS_DB` /
  `USERS_DB` become lists of records carrying their own ids, looked up with
  `List.find?` and updated with dict semantics (replace in place if the key
  exists, append otherwise).
* An operation (FastAPI handler) becomes a function from its request data and
  the store state to `OpResult`: either `.ok s'` or `.err e s'`, where `s'` in
  the error case is the state at the moment the HTTPException was raised.
  Python mutates records in place, so an exception raised after a field
  assignment would leave that assignment visible; the embedding threads the
  partially-mutated state into every error branch to model this faithfully.
* Python truthiness tests on optional strings / ints (`if not x:`) are
  modelled by explicit helpers (`none` and `some ""` / `some 0` are falsy).
-/
import Mathlib

namespace CapeCoast

/-- An `HTTPException`: status code and detail message. -/
structure ApiError where
  status_code : ℕ
  detail : String
deriving DecidableEq, Repr

/-- A GPS location sample as stored by `driver_location_ping`. -/
structure Loc where
  lat : ℚ
  lng : ℚ
  accuracy_meters : Option ℚ
  ts : ℤ
deriving DecidableEq, Repr

/-- The quote dict produced by `calculate_quote` (nested dicts flattened:
`fees.platform_fee` is `platform_fee`, `payouts.driver_base` is
`driver_base`, etc.). -/
structure Quote where
  food_subtotal : ℚ
  platform_fee : ℚ
  delivery_fee : ℚ
  margin_pool : ℚ
  restaurant : ℚ
  platform_net : ℚ
  driver_base : ℚ
  customer_total : ℚ
  valid : Bool
deriving DecidableEq, Repr

/-- An order record as created by `create_order` and mutated by the
lifecycle / dispatch handlers. Keys that the Python dict only acquires
later (pickup photo, arrival time, ...) are `Option` fields, `none` while
absent. `status_timestamps` is the dict status ↦ timestamp, as an ordered
association list with dict update semantics. -/
structure Order where
  order_id : String
  restaurant_id : String
  status : String
  quote : Quote
  created_at : ℤ
  status_timestamps : List (String × ℤ)
  driver_id : Option String
  driver_payout_locked : Option ℚ
  platform_payout_locked : Option ℚ
  delivery_type : String
  customer_id : String
  pickup_photo_url : Option String
  pickup_confirmed_at : Option ℤ
  delivery_started_at : Option ℤ
  arrival_detected_at : Option ℤ
  delivery_photo_url : Option String
  delivered_at : Option ℤ
  driver_last_location : Option Loc
  driver_location_history : List Loc
deriving DecidableEq, Repr

/-- A driver record (`DRIVERS_DB` value). -/
structure Driver where
  driver_id : String
  name : String
  phone : String
  is_available : Bool
  current_order_id : Option String
  created_at : ℤ
  status_timestamps : List (String × ℤ)
deriving DecidableEq, Repr

/-- An auth user record (`USERS_DB` value). The same structure doubles as
the authenticated actor handed to each handler by `get_current_user`. -/
structure User where
  user_id : String
  email : String
  password_hash : String
  role : String
  driver_id : Option String
  created_at : ℤ
deriving DecidableEq, Repr

/-- The joint in-memory state: `ORDERS_DB`, `DRIVERS_DB`, `USERS_DB`. -/
structure SysState where
  orders : List Order
  drivers : List Driver
  users : List User
deriving DecidableEq, Repr

/-- Outcome of one handler call: success or an HTTPException, each carrying
the store state as left behind by the call. -/
inductive OpResult where
  | ok (s : SysState)
  | err (e : ApiError) (s : SysState)
deriving DecidableEq, Repr

/-- The state an `OpResult` left behind. -/
def OpResult.state : OpResult → SysState
  | .ok s => s
  | .err _ s => s

-- ============================================================
-- Rounding (Python `round(x, 2)`: round half to even)
-- ============================================================

/-- Round a rational to the nearest integer, ties to even (Python's
`round` on exact decimal values). -/
def roundHalfEven (x : ℚ) : ℤ :=
  let n := x.floor
  let frac := x - (n : ℚ)
  if frac < 1/2 then n
  else if 1/2 < frac then n + 1
  else if n % 2 = 0 then n else n + 1

/-- Python `round(x, 2)`. -/
def round2 (x : ℚ) : ℚ :=
  ((roundHalfEven (x * 100) : ℤ) : ℚ) / 100

-- ============================================================
-- Economic / Pricing Logic (calculate_quote)
-- ============================================================

/-- `calculate_quote` from src/main.py, read as exact decimal arithmetic
(the idealization in which the spec's pricing identities are stated; the
literals `0.60` / `0.40` are written `60/100` / `40/100`). The quote
values feed the rest of the system only as opaque data (copied into the
locked-payout fields), so the other operations are insensitive to which
arithmetic model is used. The source actually computes in IEEE-754
binary64; that faithful model is `calculate_quote_float` below, and it
does not satisfy the pricing identity (see C3). -/
def calculate_quote (food_subtotal platform_fee delivery_fee : ℚ) : Quote :=
  let margin_pool := platform_fee + delivery_fee
  let platform_net := round2 (margin_pool * (60/100))
  let driver_base := round2 (margin_pool * (40/100))
  let customer_total := round2 (food_subtotal + margin_pool)
  { food_subtotal := round2 food_subtotal
    platform_fee := round2 platform_fee
    delivery_fee := round2 delivery_fee
    margin_pool := round2 margin_pool
    restaurant := round2 food_subtotal
    platform_net := platform_net
    driver_base := driver_base
    customer_total := customer_total
    valid := true }

-- ============================================================
-- IEEE-754 binary64 model of the pricing arithmetic
-- ============================================================

/-- Round a positive rational to the nearest IEEE-754 binary64 value:
scale into the binade `[2^e, 2^(e+1))`, round the 53-bit significand half
to even, scale back. Assumes the value is in the normal, non-overflowing
range (true of every quantity in this development); no subnormal or
infinity handling. -/
def flPos (a : ℚ) : ℚ :=
  let e := Int.log 2 a
  ((roundHalfEven (a * (2 : ℚ) ^ ((52 : ℤ) - e)) : ℤ) : ℚ) * (2 : ℚ) ^ (e - (52 : ℤ))

/-- Round a rational to the nearest binary64 double (normal range). -/
def fl (q : ℚ) : ℚ :=
  if q = 0 then 0
  else if q < 0 then -flPos (-q) else flPos q

/-- Python `round(x, 2)` applied to a double: round the exact value of the
double to two decimals (half to even), then return the nearest double to
that decimal. -/
def round2f (x : ℚ) : ℚ := fl (round2 x)

/-- `calculate_quote` under the source's actual IEEE-754 binary64
semantics: the parsed inputs and the literals `0.60` / `0.40` are doubles,
every `+` and `*` is correctly rounded to binary64, and every
`round(_, 2)` is `round2f`. -/
def calculate_quote_float (food_subtotal platform_fee delivery_fee : ℚ) : Quote :=
  let fs := fl food_subtotal
  let pf := fl platform_fee
  let df := fl delivery_fee
  let margin_pool := fl (pf + df)
  let platform_net := round2f (fl (margin_pool * fl (60/100)))
  let driver_base := round2f (fl (margin_pool * fl (40/100)))
  let customer_total := round2f (fl (fs + margin_pool))
  { food_subtotal := round2f fs
    platform_fee := round2f pf
    delivery_fee := round2f df
    margin_pool := round2f margin_pool
    restaurant := round2f fs
    platform_net := platform_net
    driver_base := driver_base
    customer_total := customer_total
    valid := true }

-- ============================================================
-- Python string / truthiness helpers
-- ============================================================

/-- Python `str.strip()` (drop leading and trailing whitespace). -/
def pyStrip (s : String) : String :=
  String.mk (((s.data.dropWhile Char.isWhitespace).reverse.dropWhile Char.isWhitespace).reverse)

/-- Python `str.lower()`. -/
def pyLower (s : String) : String :=
  String.mk (s.data.map Char.toLower)

/-- Python truthiness of an optional string (`if x:`): `None` and `""` are
falsy. -/
def truthyStr : Option String → Bool
  | none => false
  | some x => x ≠ ""

/-- Python truthiness of an optional integer (`if x:`): `None` and `0` are
falsy. -/
def truthyInt : Option ℤ → Bool
  | none => false
  | some x => x ≠ 0

/-- `_hash_password` computes HMAC-SHA256 of the password under the server
secret. The digest itself is an external cryptographic primitive (out of the
core per the spec); it is modelled as an injective tagging of the password. -/
def hashPassword (password : String) : String :=
  "hmac-sha256:" ++ password

-- ============================================================
-- Order Lifecycle Rules
-- ============================================================

/-- `ALLOWED_TRANSITIONS` as a function from current status to the list of
allowed successor statuses; statuses outside the table map to `[]`, matching
`ALLOWED_TRANSITIONS.get(current_status, [])` (the source lists
`"delivered"` and `"cancelled"` explicitly with value `[]`). -/
def ALLOWED_TRANSITIONS : String → List String
  | "pending" => ["confirmed", "cancelled"]
  | "confirmed" => ["assigned", "cancelled"]
  | "assigned" => ["picked_up", "cancelled"]
  | "picked_up" => ["en_route"]
  | "en_route" => ["delivered"]
  | _ => []

/-- Python dict assignment `m[k] = v`: replace in place if the key exists,
append otherwise. -/
def setKey (m : List (String × ℤ)) (k : String) (v : ℤ) : List (String × ℤ) :=
  if m.any (fun p => p.1 = k) then m.map (fun p => if p.1 = k then (k, v) else p)
  else m ++ [(k, v)]

/-- `safe_transition` from src/main.py. Returns the mutated order, or the
HTTPException; the exception is raised before any mutation. -/
def safe_transition (order : Order) (requested_status : String) (now : ℤ) :
    Except ApiError Order :=
  let requested := pyStrip requested_status
  let current := order.status
  let allowed := ALLOWED_TRANSITIONS current
  if requested ∈ allowed then
    .ok { order with
          status := requested
          status_timestamps := setKey order.status_timestamps requested now }
  else
    .error ⟨400, "Invalid transition: " ++ current ++ " -> " ++ requested⟩

-- ============================================================
-- Store lookup / update (dict semantics)
-- ============================================================

/-- `ORDERS_DB.get(order_id)`. -/
def findOrder (s : SysState) (oid : String) : Option Order :=
  s.orders.find? (fun o => o.order_id = oid)

/-- `DRIVERS_DB.get(driver_id)`. -/
def findDriver (s : SysState) (did : String) : Option Driver :=
  s.drivers.find? (fun d => d.driver_id = did)

/-- `USERS_DB.get(user_id)`. -/
def findUser (s : SysState) (uid : String) : Option User :=
  s.users.find? (fun u => u.user_id = uid)

/-- Write an order record back into `ORDERS_DB` (dict semantics keyed by
`order_id`). -/
def setOrder (s : SysState) (o : Order) : SysState :=
  if s.orders.any (fun x => x.order_id = o.order_id) then
    { s with orders := s.orders.map (fun x => if x.order_id = o.order_id then o else x) }
  else
    { s with orders := s.orders ++ [o] }

/-- Write a driver record back into `DRIVERS_DB`. -/
def setDriverSt (s : SysState) (d : Driver) : SysState :=
  if s.drivers.any (fun x => x.driver_id = d.driver_id) then
    { s with drivers := s.drivers.map (fun x => if x.driver_id = d.driver_id then d else x) }
  else
    { s with drivers := s.drivers ++ [d] }

/-- Write a user record into `USERS_DB`. -/
def setUserSt (s : SysState) (u : User) : SysState :=
  if s.users.any (fun x => x.user_id = u.user_id) then
    { s with users := s.users.map (fun x => if x.user_id = u.user_id then u else x) }
  else
    { s with users := s.users ++ [u] }

/-- `create_user` from src/main.py (the fresh `USR-...` id is passed in). -/
def create_user (email password role : String) (driver_id : Option String)
    (fresh_uid : String) (now : ℤ) (s : SysState) : SysState :=
  setUserSt s
    { user_id := fresh_uid
      email := pyStrip (pyLower email)
      password_hash := hashPassword password
      role := role
      driver_id := driver_id
      created_at := now }

-- ============================================================
-- Auth / access helpers
-- ============================================================

/-- `require_role(*allowed_roles)`: 403 when the caller's role is not
listed. -/
def require_role (allowed : List String) (u : User) : Option ApiError :=
  if u.role ∉ allowed then some ⟨403, "Insufficient permissions"⟩ else none

/-- `pick_available_driver`: first driver in `DRIVERS_DB` iteration
(insertion) order with `is_available is True` and `current_order_id is
None`. -/
def pick_available_driver (s : SysState) : Except ApiError Driver :=
  match s.drivers.find? (fun d => d.is_available = true ∧ d.current_order_id = none) with
  | some d => .ok d
  | none => .error ⟨409, "No available drivers right now"⟩

/-- `assert_driver_authorized`: the order must have a (truthy) assigned
driver and it must equal the driver id carried in the request body. -/
def assert_driver_authorized (order : Order) (driver_id : String) : Option ApiError :=
  if ¬ truthyStr order.driver_id then
    some ⟨400, "No driver assigned to this order"⟩
  else if order.driver_id ≠ some driver_id then
    some ⟨403, "Driver not authorized for this order"⟩
  else none

/-- `assert_order_access`: admin always; customer only the owner; driver
only when the order's `driver_id` equals the actor's bound `driver_id`. -/
def assert_order_access (order : Order) (u : User) : Option ApiError :=
  if u.role = "admin" then none
  else if u.role = "customer" then
    if order.customer_id ≠ u.user_id then some ⟨403, "Not allowed to view this order"⟩
    else none
  else if u.role = "driver" then
    if order.driver_id ≠ u.driver_id then some ⟨403, "Not allowed to view this order"⟩
    else none
  else some ⟨403, "Not allowed"⟩

/-- `assert_driver_user_matches`: the caller must be a driver-role user whose
bound `driver_id` equals the driver id in the request body. -/
def assert_driver_user_matches (u : User) (driver_id : String) : Option ApiError :=
  if u.role ≠ "driver" then some ⟨403, "Driver role required"⟩
  else if u.driver_id ≠ some driver_id then
    some ⟨403, "Driver token does not match driver_id"⟩
  else none

-- ============================================================
-- Handlers
-- ============================================================

/-- `POST /orders` (`create_order`). Pydantic bounds of
`CreateOrderRequest` are checked first (422), then the handler body. The
fresh `ORD-...` id is passed in. -/
def create_order (u : User) (restaurant_id : String) (fs pf df : ℚ)
    (fresh_oid : String) (now : ℤ) (s : SysState) : OpResult :=
  match require_role ["customer", "admin"] u with
  | some e => .err e s
  | none =>
  if ¬ (0 < fs ∧ 0 ≤ pf ∧ 0 ≤ df ∧ 1 ≤ restaurant_id.length) then
    .err ⟨422, "validation error"⟩ s
  else
  let rid := pyStrip restaurant_id
  if rid = "" then .err ⟨400, "restaurant_id cannot be empty"⟩ s
  else
  let quote := calculate_quote fs pf df
  .ok (setOrder s
    { order_id := fresh_oid
      restaurant_id := rid
      status := "pending"
      quote := quote
      created_at := now
      status_timestamps := [("pending", now)]
      driver_id := none
      driver_payout_locked := none
      platform_payout_locked := none
      delivery_type := "hand_to_customer"
      customer_id := u.user_id
      pickup_photo_url := none
      pickup_confirmed_at := none
      delivery_started_at := none
      arrival_detected_at := none
      delivery_photo_url := none
      delivered_at := none
      driver_last_location := none
      driver_location_history := [] })

/-- `GET /orders/{order_id}` (`get_order`): lookup then access check; the
state is never mutated. -/
def get_order (u : User) (oid : String) (s : SysState) : OpResult :=
  match findOrder s oid with
  | none => .err ⟨404, "Order not found"⟩ s
  | some order =>
    match assert_order_access order u with
    | some e => .err e s
    | none => .ok s

/-- `POST /orders/{order_id}/confirm` (`confirm_order`). -/
def confirm_order (u : User) (oid : String) (now : ℤ) (s : SysState) : OpResult :=
  match findOrder s oid with
  | none => .err ⟨404, "Order not found"⟩ s
  | some order =>
  if u.role ∉ ["customer", "admin"] then
    .err ⟨403, "Only customer or admin can confirm"⟩ s
  else
  match assert_order_access order u with
  | some e => .err e s
  | none =>
  match safe_transition order "confirmed" now with
  | .error e => .err e s
  | .ok o1 => .ok (setOrder s o1)

/-- `PATCH /orders/{order_id}/status` (`update_order_status`, admin-only
generic transition). -/
def update_order_status (u : User) (oid new_status : String) (now : ℤ)
    (s : SysState) : OpResult :=
  match require_role ["admin"] u with
  | some e => .err e s
  | none =>
  if new_status.length < 1 then .err ⟨422, "validation error"⟩ s
  else
  match findOrder s oid with
  | none => .err ⟨404, "Order not found"⟩ s
  | some order =>
  match safe_transition order new_status now with
  | .error e => .err e s
  | .ok o1 => .ok (setOrder s o1)

/-- `POST /drivers/register` (`register_driver`, admin-only). Also creates
the linked driver user account with the MVP default password. The fresh
`DRV-...` and `USR-...` ids are passed in. -/
def register_driver (u : User) (name phone : String) (fresh_did fresh_uid : String)
    (now : ℤ) (s : SysState) : OpResult :=
  match require_role ["admin"] u with
  | some e => .err e s
  | none =>
  if ¬ (1 ≤ name.length ∧ 6 ≤ phone.length) then .err ⟨422, "validation error"⟩ s
  else
  let name := pyStrip name
  let phone := pyStrip phone
  if name = "" then .err ⟨400, "name cannot be empty"⟩ s
  else if phone = "" then .err ⟨400, "phone cannot be empty"⟩ s
  else
  let record : Driver :=
    { driver_id := fresh_did
      name := name
      phone := phone
      is_available := true
      current_order_id := none
      created_at := now
      status_timestamps := [("created", now)] }
  let s1 := setDriverSt s record
  .ok (create_user (pyLower fresh_did ++ "@drivers.cape.co") "driver123" "driver"
        (some fresh_did) fresh_uid now s1)

/-- `GET /drivers` (`list_drivers`, admin-only): read-only. -/
def list_drivers (u : User) (s : SysState) : OpResult :=
  match require_role ["admin"] u with
  | some e => .err e s
  | none => .ok s

/-- `PATCH /drivers/{driver_id}/availability` (`set_driver_availability`). -/
def set_driver_availability (u : User) (driver_id : String) (is_available : Bool)
    (now : ℤ) (s : SysState) : OpResult :=
  match require_role ["driver", "admin"] u with
  | some e => .err e s
  | none =>
  let did := pyStrip driver_id
  match findDriver s did with
  | none => .err ⟨404, "Driver not found"⟩ s
  | some driver =>
  match (if u.role = "driver" then assert_driver_user_matches u did else none) with
  | some e => .err e s
  | none =>
  if is_available = true ∧ truthyStr driver.current_order_id then
    .err ⟨400, "Driver is on an active order and cannot be set to available"⟩ s
  else
  .ok (setDriverSt s
    { driver with
      is_available := is_available
      status_timestamps := setKey driver.status_timestamps "availability_changed" now })

/-- `POST /orders/{order_id}/assign-driver` (`assign_driver`, admin-only).
`payload` is the optional request body, itself holding an optional
`driver_id` (`none` request body, or a `none` / falsy driver id, both take
the auto-selection path). -/
def assign_driver (u : User) (oid : String) (payload : Option (Option String))
    (now : ℤ) (s : SysState) : OpResult :=
  match require_role ["admin"] u with
  | some e => .err e s
  | none =>
  match findOrder s oid with
  | none => .err ⟨404, "Order not found"⟩ s
  | some order =>
  if order.status ≠ "confirmed" then
    .err ⟨400, "Order must be confirmed before assignment. Current: " ++ order.status⟩ s
  else
  if truthyStr order.driver_id then
    .err ⟨409, "Order already has a driver assigned"⟩ s
  else
  let requested : Option String :=
    match payload with
    | some (some d) => if d = "" then none else some d
    | _ => none
  let chosen : Except ApiError Driver :=
    match requested with
    | some d =>
      let cid := pyStrip d
      match findDriver s cid with
      | none => .error ⟨404, "Driver not found"⟩
      | some driver =>
        if driver.is_available ≠ true ∨ driver.current_order_id ≠ none then
          .error ⟨409, "Driver is not available"⟩
        else .ok driver
    | none => pick_available_driver s
  match chosen with
  | .error e => .err e s
  | .ok driver =>
  let driver_payout := order.quote.driver_base
  let platform_payout := order.quote.platform_net
  let o1 := { order with
              driver_id := some driver.driver_id
              driver_payout_locked := some driver_payout
              platform_payout_locked := some platform_payout }
  match safe_transition o1 "assigned" now with
  | .error e => .err e (setOrder s o1)
  | .ok o2 =>
  let d1 := { driver with
              is_available := false
              current_order_id := some oid
              status_timestamps := setKey driver.status_timestamps "assigned" now }
  .ok (setDriverSt (setOrder s o2) d1)

/-- `POST /orders/{order_id}/location` (`driver_location_ping`). Pydantic
bounds of `DriverLocationPing` are checked first (422). -/
def driver_location_ping (u : User) (oid : String) (lat lng : ℚ) (acc : Option ℚ)
    (now : ℤ) (s : SysState) : OpResult :=
  match require_role ["driver", "admin"] u with
  | some e => .err e s
  | none =>
  if ¬ (-90 ≤ lat ∧ lat ≤ 90 ∧ -180 ≤ lng ∧ lng ≤ 180 ∧ acc.all (fun a => 0 ≤ a)) then
    .err ⟨422, "validation error"⟩ s
  else
  match findOrder s oid with
  | none => .err ⟨404, "Order not found"⟩ s
  | some order =>
  if order.driver_id = none then .err ⟨400, "Order has no assigned driver"⟩ s
  else
  if order.status ∉ ["assigned", "picked_up", "en_route"] then
    .err ⟨400, "Location updates not allowed in state: " ++ order.status⟩ s
  else
  if u.role = "driver" ∧ order.driver_id ≠ u.driver_id then
    .err ⟨403, "Not your order"⟩ s
  else
  let loc : Loc := { lat := lat, lng := lng, accuracy_meters := acc, ts := now }
  let hist := order.driver_location_history ++ [loc]
  let hist := if hist.length > 50 then hist.drop (hist.length - 50) else hist
  .ok (setOrder s
    { order with driver_last_location := some loc, driver_location_history := hist })

/-- `POST /orders/{order_id}/pickup` (`confirm_pickup`). -/
def confirm_pickup (u : User) (oid driver_id photo : String) (now : ℤ)
    (s : SysState) : OpResult :=
  match require_role ["driver", "admin"] u with
  | some e => .err e s
  | none =>
  if ¬ (5 ≤ driver_id.length ∧ 10 ≤ photo.length) then .err ⟨422, "validation error"⟩ s
  else
  match findOrder s oid with
  | none => .err ⟨404, "Order not found"⟩ s
  | some order =>
  if order.status ≠ "assigned" then
    .err ⟨400, "Pickup not allowed in state: " ++ order.status⟩ s
  else
  match (if u.role = "driver" then
           match assert_driver_user_matches u driver_id with
           | some e => some e
           | none =>
             if order.driver_id ≠ u.driver_id then some ⟨403, "Not your order"⟩ else none
         else none) with
  | some e => .err e s
  | none =>
  match assert_driver_authorized order driver_id with
  | some e => .err e s
  | none =>
  let o1 := { order with pickup_photo_url := some photo, pickup_confirmed_at := some now }
  let s1 := setOrder s o1
  match safe_transition o1 "picked_up" now with
  | .error e => .err e s1
  | .ok o2 => .ok (setOrder s1 o2)

/-- `POST /orders/{order_id}/start-delivery` (`start_delivery`). -/
def start_delivery (u : User) (oid driver_id : String) (now : ℤ)
    (s : SysState) : OpResult :=
  match require_role ["driver", "admin"] u with
  | some e => .err e s
  | none =>
  if ¬ (5 ≤ driver_id.length) then .err ⟨422, "validation error"⟩ s
  else
  match findOrder s oid with
  | none => .err ⟨404, "Order not found"⟩ s
  | some order =>
  if order.status ≠ "picked_up" then
    .err ⟨400, "Cannot start delivery from state: " ++ order.status⟩ s
  else
  match (if u.role = "driver" then
           match assert_driver_user_matches u driver_id with
           | some e => some e
           | none =>
             if order.driver_id ≠ u.driver_id then some ⟨403, "Not your order"⟩ else none
         else none) with
  | some e => .err e s
  | none =>
  match assert_driver_authorized order driver_id with
  | some e => .err e s
  | none =>
  let o1 := { order with delivery_started_at := some now }
  let s1 := setOrder s o1
  match safe_transition o1 "en_route" now with
  | .error e => .err e s1
  | .ok o2 => .ok (setOrder s1 o2)

/-- `POST /orders/{order_id}/arrived` (`mark_arrival`). -/
def mark_arrival (u : User) (oid : String) (now : ℤ) (s : SysState) : OpResult :=
  match require_role ["driver", "admin"] u with
  | some e => .err e s
  | none =>
  match findOrder s oid with
  | none => .err ⟨404, "Order not found"⟩ s
  | some order =>
  if order.status ≠ "en_route" then
    .err ⟨400, "Arrival not valid in state: " ++ order.status⟩ s
  else
  if u.role = "driver" ∧ order.driver_id ≠ u.driver_id then
    .err ⟨403, "Not your order"⟩ s
  else
  .ok (setOrder s { order with arrival_detected_at := some now })

/-- Tail of `complete_delivery` after all delivery-proof checks passed:
stamp `delivered_at`, run `safe_transition(order, "delivered")`, then
release the assigned driver (`current_order_id = None`,
`is_available = True`, stamp the `available` timestamp). The `delivered_at`
write happens in place before `safe_transition`, so a (in fact unreachable)
transition failure would leave it visible. -/
def deliver_and_release (order : Order) (now : ℤ) (s : SysState) : OpResult :=
  let o2 := { order with delivered_at := some now }
  let s2 := setOrder s o2
  match safe_transition o2 "delivered" now with
  | .error e => .err e s2
  | .ok o3 =>
  let s3 := setOrder s2 o3
  match o3.driver_id with
  | none => .ok s3
  | some did =>
    match findDriver s3 did with
    | none => .ok s3
    | some drv =>
      .ok (setDriverSt s3
        { drv with
          current_order_id := none
          is_available := true
          status_timestamps := setKey drv.status_timestamps "available" now })

/-- `POST /orders/{order_id}/complete-delivery` (`complete_delivery`). The
source runs two sequential checks on `delivery_type` (the leave-at-door
photo requirement — a truthiness test `if not payload.delivery_photo_url`,
so both a missing and an empty-string photo are rejected — whose in-place
photo write precedes the second check, and the hand-to-customer handoff
requirement); since the second check's guard is evaluated on the same
`delivery_type` value, it is inlined into both branches of the first check
here, with the store state at that point (`setOrder s o1` after the photo
write, `s` otherwise) threaded through. -/
def complete_delivery (u : User) (oid driver_id : String) (photo : Option String)
    (handed : Option Bool) (now : ℤ) (s : SysState) : OpResult :=
  match require_role ["driver", "admin"] u with
  | some e => .err e s
  | none =>
  if ¬ (5 ≤ driver_id.length) then .err ⟨422, "validation error"⟩ s
  else
  match findOrder s oid with
  | none => .err ⟨404, "Order not found"⟩ s
  | some order =>
  if order.status ≠ "en_route" then
    .err ⟨400, "Cannot complete delivery from state: " ++ order.status⟩ s
  else
  if ¬ truthyInt order.arrival_detected_at then
    .err ⟨400, "Arrival must be detected before completing delivery"⟩ s
  else
  match (if u.role = "driver" then
           match assert_driver_user_matches u driver_id with
           | some e => some e
           | none =>
             if order.driver_id ≠ u.driver_id then some ⟨403, "Not your order"⟩ else none
         else none) with
  | some e => .err e s
  | none =>
  match assert_driver_authorized order driver_id with
  | some e => .err e s
  | none =>
  let delivery_type := order.delivery_type
  if delivery_type = "leave_at_door" then
    if ¬ truthyStr photo then
      .err ⟨400, "Delivery photo required for leave-at-door orders"⟩ s
    else
      let o1 := { order with delivery_photo_url := photo }
      let s1 := setOrder s o1
      if delivery_type = "hand_to_customer" ∧ handed ≠ some true then
        .err ⟨400, "Driver must confirm handoff to customer"⟩ s1
      else deliver_and_release o1 now s1
  else
    if delivery_type = "hand_to_customer" ∧ handed ≠ some true then
      .err ⟨400, "Driver must confirm handoff to customer"⟩ s
    else deliver_and_release order now s

-- ============================================================
-- All core operations, for store-wide frame theorems
-- ============================================================

/-- One invocation of a core operation with all its request data (fresh ids
and the clock passed explicitly). -/
inductive Op where
  | createOrder (u : User) (restaurant_id : String) (fs pf df : ℚ)
      (fresh_oid : String) (now : ℤ)
  | getOrder (u : User) (oid : String)
  | confirmOrder (u : User) (oid : String) (now : ℤ)
  | updateOrderStatus (u : User) (oid new_status : String) (now : ℤ)
  | registerDriver (u : User) (name phone fresh_did fresh_uid : String) (now : ℤ)
  | listDrivers (u : User)
  | setDriverAvailability (u : User) (driver_id : String) (is_available : Bool) (now : ℤ)
  | assignDriver (u : User) (oid : String) (payload : Option (Option String)) (now : ℤ)
  | locationPing (u : User) (oid : String) (lat lng : ℚ) (acc : Option ℚ) (now : ℤ)
  | confirmPickup (u : User) (oid driver_id photo : String) (now : ℤ)
  | startDelivery (u : User) (oid driver_id : String) (now : ℤ)
  | markArrival (u : User) (oid : String) (now : ℤ)
  | completeDelivery (u : User) (oid driver_id : String) (photo : Option String)
      (handed : Option Bool) (now : ℤ)

/-- Run one core operation against the store state. -/
def runOp : Op → SysState → OpResult
  | .createOrder u rid fs pf df oid now, s => create_order u rid fs pf df oid now s
  | .getOrder u oid, s => get_order u oid s
  | .confirmOrder u oid now, s => confirm_order u oid now s
  | .updateOrderStatus u oid st now, s => update_order_status u oid st now s
  | .registerDriver u name phone did uid now, s => register_driver u name phone did uid now s
  | .listDrivers u, s => list_drivers u s
  | .setDriverAvailability u did avail now, s => set_driver_availability u did avail now s
  | .assignDriver u oid payload now, s => assign_driver u oid payload now s
  | .locationPing u oid lat lng acc now, s => driver_location_ping u oid lat lng acc now s
  | .confirmPickup u oid did photo now, s => confirm_pickup u oid did photo now s
  | .startDelivery u oid did now, s => start_delivery u oid did now s
  | .markArrival u oid now, s => mark_arrival u oid now s
  | .completeDelivery u oid did photo handed now, s => complete_delivery u oid did photo handed now s

-- ============================================================
-- Concrete fixtures (sample records for witnesses / counterexamples)
-- ============================================================

/-- A concrete admin actor. -/
def adminUser : User :=
  { user_id := "USR-ADMIN", email := "admin@cape.co",
    password_hash := hashPassword "admin123", role := "admin",
    driver_id := none, created_at := 0 }

/-- A concrete customer actor. -/
def custUser : User :=
  { user_id := "USR-CUST", email := "customer@cape.co",
    password_hash := hashPassword "customer123", role := "customer",
    driver_id := none, created_at := 0 }

/-- A concrete driver actor bound to driver `DRV-1`. -/
def drvUser : User :=
  { user_id := "USR-DRV", email := "drv-1@drivers.cape.co",
    password_hash := hashPassword "driver123", role := "driver",
    driver_id := some "DRV-1", created_at := 0 }

/-- A concrete quote (margin pool 5.00 split 3.00 / 2.00). -/
def quote0 : Quote :=
  { food_subtotal := 50, platform_fee := 3, delivery_fee := 2, margin_pool := 5,
    restaurant := 50, platform_net := 3, driver_base := 2, customer_total := 55,
    valid := true }

/-- A concrete pending order `ORD-1` owned by `USR-CUST`. -/
def orderPending : Order :=
  { order_id := "ORD-1", restaurant_id := "RST-1", status := "pending",
    quote := quote0, created_at := 1, status_timestamps := [("pending", 1)],
    driver_id := none, driver_payout_locked := none, platform_payout_locked := none,
    delivery_type := "hand_to_customer", customer_id := "USR-CUST",
    pickup_photo_url := none, pickup_confirmed_at := none, delivery_started_at := none,
    arrival_detected_at := none, delivery_photo_url := none, delivered_at := none,
    driver_last_location := none, driver_location_history := [] }

/-- `orderPending` once confirmed. -/
def orderConfirmed : Order :=
  { orderPending with
    status := "confirmed"
    status_timestamps := [("pending", 1), ("confirmed", 2)] }

/-- An en-route copy of `ORD-1` bound to driver `DRV-1`, with payouts locked
and an arrival recorded. -/
def orderEnRoute : Order :=
  { orderPending with
    status := "en_route"
    status_timestamps := [("pending", 1), ("confirmed", 2), ("assigned", 3),
                          ("picked_up", 4), ("en_route", 5)]
    driver_id := some "DRV-1"
    driver_payout_locked := some 2
    platform_payout_locked := some 3
    pickup_photo_url := some "https://pics.example/p1"
    pickup_confirmed_at := some 4
    delivery_started_at := some 5
    arrival_detected_at := some 6 }

/-- A concrete available driver `DRV-1`. -/
def driverFree : Driver :=
  { driver_id := "DRV-1", name := "Kofi", phone := "0240000000",
    is_available := true, current_order_id := none, created_at := 0,
    status_timestamps := [("created", 0)] }

/-- `DRV-1` while bound to order `ORD-1`. -/
def driverBusy : Driver :=
  { driverFree with
    is_available := false
    current_order_id := some "ORD-1"
    status_timestamps := [("created", 0), ("assigned", 3)] }

/-- Store with the pending order only. -/
def stPending : SysState :=
  { orders := [orderPending], drivers := [], users := [] }

/-- Store with the confirmed order and the free driver. -/
def stConfirmed : SysState :=
  { orders := [orderConfirmed], drivers := [driverFree], users := [] }

/-- Store with the en-route order and its busy driver. -/
def stEnRoute : SysState :=
  { orders := [orderEnRoute], drivers := [driverBusy], users := [] }

-- ============================================================
-- Structural lemmas
-- ============================================================

/-- `Rat.floor` agrees with the floor of the archimedean order structure. -/
theorem ratFloor_eq_intFloor (q : ℚ) : q.floor = ⌊q⌋ := by
  rw [Rat.floor_def', Rat.floor_def]

theorem pyStrip_pending : pyStrip "pending" = "pending" := by decide

theorem pyStrip_confirmed : pyStrip "confirmed" = "confirmed" := by decide

theorem pyStrip_assigned : pyStrip "assigned" = "assigned" := by decide

theorem pyStrip_picked_up : pyStrip "picked_up" = "picked_up" := by decide

theorem pyStrip_en_route : pyStrip "en_route" = "en_route" := by decide

theorem pyStrip_delivered : pyStrip "delivered" = "delivered" := by decide

/-- Replacing the `key`-matching elements of a list by `a` makes the first
`key`-match of the resulting list be `a`, provided a match existed. -/
theorem find?_replace {α : Type} (key : α → String) (a : α) (l : List α)
    (h : l.any (fun x => key x = key a)) :
    (l.map (fun x => if key x = key a then a else x)).find?
      (fun x => key x = key a) = some a := by
  induction l with
  | nil => simp at h
  | cons b t ih =>
    by_cases hb : key b = key a
    · simp [List.find?_cons, hb]
    · simp only [List.any_cons] at h
      simp only [List.map_cons, if_neg hb, List.find?_cons, decide_eq_false hb]
      exact ih (by simpa [hb] using h)

/-- Appending `a` to a list with no `key`-match makes the first `key`-match
of the resulting list be `a`. -/
theorem find?_append_of_none {α : Type} (key : α → String) (a : α) (l : List α)
    (h : ¬ l.any (fun x => key x = key a)) :
    (l ++ [a]).find? (fun x => key x = key a) = some a := by
  induction l with
  | nil => simp
  | cons b t ih =>
    simp only [List.any_cons, Bool.or_eq_true, not_or] at h
    simp only [List.cons_append, List.find?_cons,
      decide_eq_false (by simpa using h.1 : ¬ key b = key a)]
    exact ih (by simpa using h.2)

theorem findOrder_setOrder_self (s : SysState) (o : Order) :
    findOrder (setOrder s o) o.order_id = some o := by
  unfold findOrder setOrder
  split
  · next h => exact find?_replace (fun x => x.order_id) o s.orders h
  · next h => exact find?_append_of_none (fun x => x.order_id) o s.orders h

theorem findDriver_setDriverSt_self (s : SysState) (d : Driver) :
    findDriver (setDriverSt s d) d.driver_id = some d := by
  unfold findDriver setDriverSt
  split
  · next h => exact find?_replace (fun x => x.driver_id) d s.drivers h
  · next h => exact find?_append_of_none (fun x => x.driver_id) d s.drivers h

theorem findUser_setUserSt_self (s : SysState) (u : User) :
    findUser (setUserSt s u) u.user_id = some u := by
  unfold findUser setUserSt
  split
  · next h => exact find?_replace (fun x => x.user_id) u s.users h
  · next h => exact find?_append_of_none (fun x => x.user_id) u s.users h

/-- A successful `findOrder` lookup returns a record carrying the looked-up
id. -/
theorem findOrder_id (s : SysState) (oid : String) (o : Order)
    (h : findOrder s oid = some o) : o.order_id = oid := by
  unfold findOrder at h
  simpa using List.find?_some h

/-- A successful `findDriver` lookup returns a record carrying the looked-up
id. -/
theorem findDriver_id (s : SysState) (did : String) (d : Driver)
    (h : findDriver s did = some d) : d.driver_id = did := by
  unfold findDriver at h
  simpa using List.find?_some h

theorem setOrder_drivers (s : SysState) (o : Order) :
    (setOrder s o).drivers = s.drivers := by
  unfold setOrder
  split <;> rfl

theorem setOrder_users (s : SysState) (o : Order) :
    (setOrder s o).users = s.users := by
  unfold setOrder
  split <;> rfl

theorem setDriverSt_orders (s : SysState) (d : Driver) :
    (setDriverSt s d).orders = s.orders := by
  unfold setDriverSt
  split <;> rfl

theorem setUserSt_orders (s : SysState) (u : User) :
    (setUserSt s u).orders = s.orders := by
  unfold setUserSt
  split <;> rfl

theorem setUserSt_drivers (s : SysState) (u : User) :
    (setUserSt s u).drivers = s.drivers := by
  unfold setUserSt
  split <;> rfl

theorem findDriver_setOrder (s : SysState) (o : Order) (did : String) :
    findDriver (setOrder s o) did = findDriver s did := by
  unfold findDriver
  rw [setOrder_drivers]

theorem findOrder_setDriverSt (s : SysState) (d : Driver) (oid : String) :
    findOrder (setDriverSt s d) oid = findOrder s oid := by
  unfold findOrder
  rw [setDriverSt_orders]

/-- Every driver in the store after a `setDriverSt` is either the written
record or an untouched record with a different id. -/
theorem mem_setDriverSt (s : SysState) (d x : Driver)
    (hx : x ∈ (setDriverSt s d).drivers) :
    x = d ∨ (x ∈ s.drivers ∧ x.driver_id ≠ d.driver_id) := by
  unfold setDriverSt at hx
  split at hx
  · next h =>
    simp only [List.mem_map] at hx
    obtain ⟨y, hy, hxy⟩ := hx
    by_cases hid : y.driver_id = d.driver_id
    · left
      rw [← hxy, if_pos hid]
    · right
      rw [← hxy, if_neg hid]
      exact ⟨hy, hid⟩
  · next h =>
    simp only [List.mem_append, List.mem_singleton] at hx
    rcases hx with hx | hx
    · right
      refine ⟨hx, ?_⟩
      simp only [List.any_eq_true, decide_eq_true_eq, not_exists, not_and] at h
      exact h x hx
    · left
      exact hx

-- ============================================================
-- Error-frame lemmas: a raised HTTPException leaves the stores untouched
-- ============================================================

theorem create_order_err_frame (u : User) (rid : String) (fs pf df : ℚ)
    (oid : String) (now : ℤ) (s : SysState) (e : ApiError) (s' : SysState)
    (h : create_order u rid fs pf df oid now s = .err e s') : s' = s := by
  simp only [create_order] at h
  repeat' (split at h)
  all_goals simp_all

theorem get_order_err_frame (u : User) (oid : String) (s : SysState)
    (e : ApiError) (s' : SysState)
    (h : get_order u oid s = .err e s') : s' = s := by
  simp only [get_order] at h
  repeat' (split at h)
  all_goals simp_all

theorem confirm_order_err_frame (u : User) (oid : String) (now : ℤ) (s : SysState)
    (e : ApiError) (s' : SysState)
    (h : confirm_order u oid now s = .err e s') : s' = s := by
  simp only [confirm_order] at h
  repeat' (split at h)
  all_goals simp_all

theorem update_order_status_err_frame (u : User) (oid st : String) (now : ℤ)
    (s : SysState) (e : ApiError) (s' : SysState)
    (h : update_order_status u oid st now s = .err e s') : s' = s := by
  simp only [update_order_status] at h
  repeat' (split at h)
  all_goals simp_all

theorem register_driver_err_frame (u : User) (name phone did uid : String) (now : ℤ)
    (s : SysState) (e : ApiError) (s' : SysState)
    (h : register_driver u name phone did uid now s = .err e s') : s' = s := by
  simp only [register_driver] at h
  repeat' (split at h)
  all_goals simp_all

theorem list_drivers_err_frame (u : User) (s : SysState) (e : ApiError) (s' : SysState)
    (h : list_drivers u s = .err e s') : s' = s := by
  simp only [list_drivers] at h
  repeat' (split at h)
  all_goals simp_all

theorem set_driver_availability_err_frame (u : User) (did : String) (av : Bool)
    (now : ℤ) (s : SysState) (e : ApiError) (s' : SysState)
    (h : set_driver_availability u did av now s = .err e s') : s' = s := by
  simp only [set_driver_availability] at h
  repeat' (split at h)
  all_goals simp_all

/-- `safe_transition(order1, "assigned")` inside `assign_driver` cannot fail
(the order was checked to be `confirmed`), so every `assign_driver` error
predates its mutations. -/
theorem assign_driver_err_frame (u : User) (oid : String)
    (payload : Option (Option String)) (now : ℤ) (s : SysState) (e : ApiError)
    (s' : SysState)
    (h : assign_driver u oid payload now s = .err e s') : s' = s := by
  simp only [assign_driver] at h
  repeat' (split at h)
  all_goals simp_all [safe_transition, pyStrip_assigned, ALLOWED_TRANSITIONS]

theorem driver_location_ping_err_frame (u : User) (oid : String) (lat lng : ℚ)
    (acc : Option ℚ) (now : ℤ) (s : SysState) (e : ApiError) (s' : SysState)
    (h : driver_location_ping u oid lat lng acc now s = .err e s') : s' = s := by
  simp only [driver_location_ping] at h
  repeat' (split at h)
  all_goals simp_all

theorem confirm_pickup_err_frame (u : User) (oid did photo : String) (now : ℤ)
    (s : SysState) (e : ApiError) (s' : SysState)
    (h : confirm_pickup u oid did photo now s = .err e s') : s' = s := by
  simp only [confirm_pickup] at h
  repeat' (split at h)
  all_goals simp_all [safe_transition, pyStrip_picked_up, ALLOWED_TRANSITIONS]

theorem start_delivery_err_frame (u : User) (oid did : String) (now : ℤ)
    (s : SysState) (e : ApiError) (s' : SysState)
    (h : start_delivery u oid did now s = .err e s') : s' = s := by
  simp only [start_delivery] at h
  repeat' (split at h)
  all_goals simp_all [safe_transition, pyStrip_en_route, ALLOWED_TRANSITIONS]

theorem mark_arrival_err_frame (u : User) (oid : String) (now : ℤ)
    (s : SysState) (e : ApiError) (s' : SysState)
    (h : mark_arrival u oid now s = .err e s') : s' = s := by
  simp only [mark_arrival] at h
  repeat' (split at h)
  all_goals simp_all

/-- Once all checks of `complete_delivery` passed, its tail (transition to
`delivered` plus driver release) never raises: the order is `en_route` and
`delivered` is an allowed successor. -/
theorem deliver_and_release_ne_err (order : Order) (now : ℤ) (s : SysState)
    (hst : order.status = "en_route") (e : ApiError) (s' : SysState) :
    deliver_and_release order now s ≠ .err e s' := by
  simp only [deliver_and_release]
  repeat' split
  all_goals simp_all [safe_transition, pyStrip_delivered, ALLOWED_TRANSITIONS]

theorem complete_delivery_err_frame (u : User) (oid did : String)
    (photo : Option String) (handed : Option Bool) (now : ℤ) (s : SysState)
    (e : ApiError) (s' : SysState)
    (h : complete_delivery u oid did photo handed now s = .err e s') : s' = s := by
  simp only [complete_delivery] at h
  repeat' (split at h)
  all_goals
    first
    | (exact absurd h (deliver_and_release_ne_err _ _ _ (by simp_all) _ _))
    | simp_all

/-- `truthyInt` characterisation. -/
theorem truthyInt_iff (x : Option ℤ) : truthyInt x = true ↔ ∃ t, x = some t ∧ t ≠ 0 := by
  cases x <;> simp [truthyInt]

/-- The tail of a successful `complete_delivery` run: the order reaches
`delivered` and, in the same step, the assigned driver is released
(`current_order_id` cleared, availability restored, release timestamp
stamped). -/
theorem deliver_and_release_releases (order : Order) (now : ℤ) (s s' : SysState)
    (did : String) (drv : Driver)
    (hst : order.status = "en_route")
    (hdid : order.driver_id = some did)
    (hdrv : findDriver s did = some drv)
    (h : deliver_and_release order now s = .ok s') :
    findOrder s' order.order_id =
      some { order with
             driver_id := some did
             delivered_at := some now
             status := "delivered"
             status_timestamps := setKey order.status_timestamps "delivered" now } ∧
    findDriver s' did =
      some { drv with
             current_order_id := none
             is_available := true
             status_timestamps := setKey drv.status_timestamps "available" now } := by
  have hok : safe_transition { order with delivered_at := some now } "delivered" now =
      .ok { order with
            delivered_at := some now
            status := "delivered"
            status_timestamps := setKey order.status_timestamps "delivered" now } := by
    simp [safe_transition, pyStrip_delivered, ALLOWED_TRANSITIONS, hst]
  simp only [deliver_and_release, hok] at h
  simp only [hdid, findDriver_setOrder, hdrv, OpResult.ok.injEq] at h
  subst h
  constructor
  · rw [findOrder_setDriverSt]
    exact findOrder_setOrder_self _ _
  · rw [← findDriver_id s did drv hdrv]
    exact findDriver_setDriverSt_self _ _

-- ============================================================
-- Claim theorems
-- ============================================================

/-- C2: every core operation that fails with an error leaves the whole
store state (orders, drivers, users) exactly as it was; in particular a
transition request whose (stripped) target is not in the allowed-successor
set of the order's current status fails with `IllegalTransition`
(HTTP 400, `Invalid transition`) and leaves the state — hence the order's
status and status_timestamps — unchanged. -/
theorem claim_C2_no_partial_mutation_on_error :
    (∀ (op : Op) (s : SysState) (e : ApiError) (s' : SysState),
        runOp op s = .err e s' → s' = s) ∧
    (∀ (u : User) (oid tgt : String) (now : ℤ) (s : SysState) (o : Order),
        u.role = "admin" → 1 ≤ tgt.length → findOrder s oid = some o →
        pyStrip tgt ∉ ALLOWED_TRANSITIONS o.status →
        runOp (.updateOrderStatus u oid tgt now) s =
          .err ⟨400, "Invalid transition: " ++ o.status ++ " -> " ++ pyStrip tgt⟩ s) := by
  constructor
  · intro op s e s' h
    cases op with
    | createOrder u rid fs pf df oid now => exact create_order_err_frame u rid fs pf df oid now s e s' h
    | getOrder u oid => exact get_order_err_frame u oid s e s' h
    | confirmOrder u oid now => exact confirm_order_err_frame u oid now s e s' h
    | updateOrderStatus u oid st now => exact update_order_status_err_frame u oid st now s e s' h
    | registerDriver u name phone did uid now => exact register_driver_err_frame u name phone did uid now s e s' h
    | listDrivers u => exact list_drivers_err_frame u s e s' h
    | setDriverAvailability u did av now => exact set_driver_availability_err_frame u did av now s e s' h
    | assignDriver u oid payload now => exact assign_driver_err_frame u oid payload now s e s' h
    | locationPing u oid lat lng acc now => exact driver_location_ping_err_frame u oid lat lng acc now s e s' h
    | confirmPickup u oid did photo now => exact confirm_pickup_err_frame u oid did photo now s e s' h
    | startDelivery u oid did now => exact start_delivery_err_frame u oid did now s e s' h
    | markArrival u oid now => exact mark_arrival_err_frame u oid now s e s' h
    | completeDelivery u oid did photo handed now => exact complete_delivery_err_frame u oid did photo handed now s e s' h
  · intro u oid tgt now s o hrole hlen hfound hmem
    have h1 : require_role ["admin"] u = none := by simp [require_role, hrole]
    simp only [runOp, update_order_status, h1, hfound]
    rw [if_neg (by omega)]
    simp [safe_transition, hmem]

/-- Witness for C2 at concrete inputs: a failing `getOrder` (unknown id)
leaves the store untouched, and `pending -> delivered` is rejected as an
illegal transition leaving the store untouched. -/
theorem claim_C2_witness :
    stPending = stPending ∧
    runOp (.updateOrderStatus adminUser "ORD-1" "delivered" 7) stPending =
      .err ⟨400, "Invalid transition: " ++ orderPending.status ++ " -> " ++ pyStrip "delivered"⟩
        stPending := by
  constructor
  · exact claim_C2_no_partial_mutation_on_error.1 (.getOrder adminUser "NOPE")
      stPending ⟨404, "Order not found"⟩ stPending (by decide)
  · exact claim_C2_no_partial_mutation_on_error.2 adminUser "ORD-1" "delivered" 7
      stPending orderPending rfl (by decide) (by decide) (by decide)

/-- C4 (refuted by the code, code bug per the spec's own §5/§9 note):
re-requesting the order's current status as the transition target is not a
no-op success — `safe_transition` rejects it with `Invalid transition`
(HTTP 400), because no status lists itself among its allowed successors.
At the concrete failing input (a `pending` order, target `"pending"`), the
generic status endpoint raises and leaves the store unchanged. -/
theorem claim_C4_self_transition_rejected :
    update_order_status adminUser "ORD-1" "pending" 7 stPending =
      .err ⟨400, "Invalid transition: pending -> pending"⟩ stPending := by decide

/-- C6 counterexample: the admin `setStatus` path (`update_order_status`)
takes an en-route order with a bound driver to `delivered` while the bound
driver keeps `current_order_id = ORD-1` and `is_available = false` — the
driver is not released on this path to `delivered`. -/
theorem claim_C6_counterexample_admin_path_skips_release :
    (findOrder (runOp (.updateOrderStatus adminUser "ORD-1" "delivered" 9) stEnRoute).state
        "ORD-1").map Order.status = some "delivered" ∧
    orderEnRoute.driver_id = some "DRV-1" ∧
    findDriver (runOp (.updateOrderStatus adminUser "ORD-1" "delivered" 9) stEnRoute).state
        "DRV-1" = some driverBusy ∧
    driverBusy.current_order_id = some "ORD-1" ∧
    driverBusy.is_available = false := by decide

/-- C6 (amended): whenever an order with a bound driver (present in the
driver store) reaches `delivered` through `completeDelivery`, the same step
sets the order to `delivered` and releases the bound driver: its
`current_order_id` is cleared, `is_available` is set back to true and a
release (`available`) timestamp is stamped. The admin `setStatus` path can
also reach `delivered` but performs no release (see the counterexample). -/
theorem claim_C6_complete_delivery_releases_driver (u : User) (oid rdid : String)
    (photo : Option String) (handed : Option Bool) (now : ℤ) (s s' : SysState)
    (o : Order) (did2 : String) (drv : Driver)
    (hfound : findOrder s oid = some o)
    (hdid : o.driver_id = some did2)
    (hdrv : findDriver s did2 = some drv)
    (h : complete_delivery u oid rdid photo handed now s = .ok s') :
    ∃ o', findOrder s' oid = some o' ∧ o'.status = "delivered" ∧
      o'.delivered_at = some now ∧
      findDriver s' did2 =
        some { drv with
               current_order_id := none
               is_available := true
               status_timestamps := setKey drv.status_timestamps "available" now } := by
  simp only [complete_delivery, hfound] at h
  repeat' (split at h)
  all_goals try exact OpResult.noConfusion h
  all_goals
    obtain ⟨h1, h2⟩ := (fun hst hdid2 hdrv2 =>
        deliver_and_release_releases _ now _ s' did2 drv hst hdid2 hdrv2 h)
      (by simp_all) hdid
      (by first | exact hdrv | (rw [findDriver_setOrder]; exact hdrv))
  all_goals
    refine ⟨_, by rw [← findOrder_id s oid o hfound]; exact h1, rfl, rfl, h2⟩

/-- Witness for the amended C6 at a concrete successful completion. -/
theorem claim_C6_witness :
    ∃ o', findOrder
        (complete_delivery drvUser "ORD-1" "DRV-1" none (some true) 9 stEnRoute).state
        "ORD-1" = some o' ∧
      o'.status = "delivered" ∧ o'.delivered_at = some 9 ∧
      findDriver
          (complete_delivery drvUser "ORD-1" "DRV-1" none (some true) 9 stEnRoute).state
          "DRV-1" =
        some { driverBusy with
               current_order_id := none
               is_available := true
               status_timestamps := setKey driverBusy.status_timestamps "available" 9 } :=
  claim_C6_complete_delivery_releases_driver drvUser "ORD-1" "DRV-1" none (some true) 9
    stEnRoute _ orderEnRoute "DRV-1" driverBusy (by decide) (by decide) (by decide)
    (by decide)

/-- C5: `completeDelivery` succeeds only when the order is `en_route`, an
arrival event was recorded (truthy `arrival_detected_at`), and the
delivery-type-specific proof is supplied (`leave_at_door` needs a truthy
(present, non-empty) photo reference,
`hand_to_customer` needs an explicit `handed_to_customer = true`); when any
of these preconditions is violated it fails with an error and leaves the
store — hence the order, which does not become `delivered` — unchanged. -/
theorem claim_C5_complete_delivery_preconditions (u : User) (oid rdid : String)
    (photo : Option String) (handed : Option Bool) (now : ℤ) (s : SysState)
    (o : Order) (hfound : findOrder s oid = some o) :
    (∀ s1, complete_delivery u oid rdid photo handed now s = .ok s1 →
        o.status = "en_route" ∧ truthyInt o.arrival_detected_at = true ∧
        (o.delivery_type = "leave_at_door" → truthyStr photo = true) ∧
        (o.delivery_type = "hand_to_customer" → handed = some true)) ∧
    (¬(o.status = "en_route" ∧ truthyInt o.arrival_detected_at = true ∧
        (o.delivery_type = "leave_at_door" → truthyStr photo = true) ∧
        (o.delivery_type = "hand_to_customer" → handed = some true)) →
      ∃ e, complete_delivery u oid rdid photo handed now s = .err e s) := by
  have key : ∀ s1, complete_delivery u oid rdid photo handed now s = .ok s1 →
      o.status = "en_route" ∧ truthyInt o.arrival_detected_at = true ∧
      (o.delivery_type = "leave_at_door" → truthyStr photo = true) ∧
      (o.delivery_type = "hand_to_customer" → handed = some true) := by
    intro s1 h
    simp only [complete_delivery, hfound] at h
    repeat' (split at h)
    all_goals try exact OpResult.noConfusion h
    all_goals
      refine ⟨by simp_all, by simp_all, by simp_all, by simp_all⟩
  refine ⟨key, ?_⟩
  intro hviol
  rcases hres : complete_delivery u oid rdid photo handed now s with s1 | ⟨e, s1⟩
  · exact absurd (key s1 hres) hviol
  · have := complete_delivery_err_frame u oid rdid photo handed now s e s1 hres
    subst this
    exact ⟨e, rfl⟩

/-- Witness for C5: a hand-to-customer order with no handoff confirmation is
rejected and the store is untouched. -/
theorem claim_C5_witness :
    ∃ e, complete_delivery drvUser "ORD-1" "DRV-1" none none 9 stEnRoute =
      .err e stEnRoute :=
  (claim_C5_complete_delivery_preconditions drvUser "ORD-1" "DRV-1" none none 9
    stEnRoute orderEnRoute (by decide)).2 (by decide)

/-- C1: `assignDriver` (admin caller) on an order whose status is not
`confirmed` fails with `PreconditionFailed` (HTTP 400) leaving the store
untouched; whenever it succeeds, the one step locks the order's payout
fields to the quote's `driver_base` / `platform_net`, sets the order's
driver id to the selected driver, moves the order to `assigned`, and marks
the selected driver unavailable with `current_order_id` equal to the order
id — and if no driver previously held the order, the selected driver is the
only driver holding it afterwards. -/
theorem claim_C1_assign_driver_spec (u : User) (oid : String)
    (payload : Option (Option String)) (now : ℤ) (s : SysState) (o : Order)
    (hrole : u.role = "admin")
    (hfound : findOrder s oid = some o) :
    (o.status ≠ "confirmed" →
        assign_driver u oid payload now s =
          .err ⟨400, "Order must be confirmed before assignment. Current: " ++ o.status⟩ s) ∧
    (∀ s', assign_driver u oid payload now s = .ok s' →
        ∃ d o', findOrder s' oid = some o' ∧
          o'.driver_payout_locked = some o.quote.driver_base ∧
          o'.platform_payout_locked = some o.quote.platform_net ∧
          o'.driver_id = some d.driver_id ∧
          o'.status = "assigned" ∧
          findDriver s' d.driver_id = some d ∧
          d.is_available = false ∧ d.current_order_id = some oid ∧
          ((∀ d0 ∈ s.drivers, d0.current_order_id ≠ some oid) →
            ∀ d1 ∈ s'.drivers, d1.current_order_id = some oid →
              d1.driver_id = d.driver_id)) := by
  have h1 : require_role ["admin"] u = none := by simp [require_role, hrole]
  have hoid : o.order_id = oid := findOrder_id s oid o hfound
  constructor
  · intro hstatus
    simp only [assign_driver, h1, hfound]
    rw [if_pos hstatus]
  · intro s' h
    simp only [assign_driver, h1, hfound] at h
    split at h
    · exact OpResult.noConfusion h
    next hstat =>
    split at h
    · exact OpResult.noConfusion h
    next hbound =>
    have hc : o.status = "confirmed" := not_ne_iff.mp hstat
    repeat' (split at h)
    all_goals try exact OpResult.noConfusion h
    all_goals (
      next o2 heq2 =>
      simp only [safe_transition, pyStrip_assigned, ALLOWED_TRANSITIONS, hc,
        List.mem_cons, List.mem_singleton] at heq2
      rw [if_pos (by simp)] at heq2
      simp only [Except.ok.injEq] at heq2
      subst heq2
      simp only [OpResult.ok.injEq] at h
      subst h
      refine ⟨_, _,
        by rw [findOrder_setDriverSt, ← hoid]; exact findOrder_setOrder_self _ _,
        rfl, rfl, rfl, rfl, findDriver_setDriverSt_self _ _, rfl, rfl, ?_⟩
      intro hfresh d1 hmem hcur
      rcases mem_setDriverSt _ _ _ hmem with hd1 | ⟨hd1, _⟩
      · rw [hd1]
      · rw [setOrder_drivers] at hd1
        exact absurd hcur (hfresh d1 hd1))

/-- Witness for C1 at a concrete successful assignment of `DRV-1` to the
confirmed order `ORD-1`. -/
theorem claim_C1_witness :
    ∃ d o', findOrder
        (assign_driver adminUser "ORD-1" (some (some "DRV-1")) 3 stConfirmed).state
        "ORD-1" = some o' ∧
      o'.driver_payout_locked = some orderConfirmed.quote.driver_base ∧
      o'.platform_payout_locked = some orderConfirmed.quote.platform_net ∧
      o'.driver_id = some d.driver_id ∧
      o'.status = "assigned" ∧
      findDriver
          (assign_driver adminUser "ORD-1" (some (some "DRV-1")) 3 stConfirmed).state
          d.driver_id = some d ∧
      d.is_available = false ∧ d.current_order_id = some "ORD-1" ∧
      ((∀ d0 ∈ stConfirmed.drivers, d0.current_order_id ≠ some "ORD-1") →
        ∀ d1 ∈ (assign_driver adminUser "ORD-1" (some (some "DRV-1")) 3
            stConfirmed).state.drivers,
          d1.current_order_id = some "ORD-1" → d1.driver_id = d.driver_id) :=
  (claim_C1_assign_driver_spec adminUser "ORD-1" (some (some "DRV-1")) 3 stConfirmed
    orderConfirmed rfl (by decide)).2 _ (by decide)

/-- C7: `getOrder` authorisation — an admin actor is always allowed; a
customer actor is allowed exactly when they own the order; a driver actor is
allowed exactly when the order's `driver_id` equals the actor's bound
`driver_id`; in particular a driver actor bound to some driver id gets
`Forbidden` (403) on any order not bound to them (including every
unassigned order, whose `driver_id` is `None`). -/
theorem claim_C7_get_order_access (u : User) (oid : String) (s : SysState)
    (o : Order) (hfound : findOrder s oid = some o) :
    (u.role = "admin" → get_order u oid s = .ok s) ∧
    (u.role = "customer" →
        get_order u oid s =
          if o.customer_id = u.user_id then .ok s
          else .err ⟨403, "Not allowed to view this order"⟩ s) ∧
    (u.role = "driver" →
        get_order u oid s =
          if o.driver_id = u.driver_id then .ok s
          else .err ⟨403, "Not allowed to view this order"⟩ s) ∧
    (u.role = "driver" → ∀ d2, u.driver_id = some d2 → o.driver_id ≠ some d2 →
        get_order u oid s = .err ⟨403, "Not allowed to view this order"⟩ s) := by
  refine ⟨?_, ?_, ?_, ?_⟩ <;> intro hrole
  · simp [get_order, hfound, assert_order_access, hrole]
  · by_cases hown : o.customer_id = u.user_id
    · simp [get_order, hfound, assert_order_access, hrole, hown]
    · simp [get_order, hfound, assert_order_access, hrole, hown]
  · by_cases hbnd : o.driver_id = u.driver_id
    · simp [get_order, hfound, assert_order_access, hrole, hbnd]
    · simp [get_order, hfound, assert_order_access, hrole, hbnd]
  · intro d2 hd2 hne
    simp [get_order, hfound, assert_order_access, hrole, hd2, hne]

/-- Witness for C7: the driver actor bound to `DRV-1` requesting the
unassigned pending order receives 403. -/
theorem claim_C7_witness :
    get_order drvUser "ORD-1" stPending =
      .err ⟨403, "Not allowed to view this order"⟩ stPending :=
  (claim_C7_get_order_access drvUser "ORD-1" stPending orderPending
    (by decide)).2.2.2 rfl "DRV-1" rfl (by decide)

/-- The `history[-50:]` truncation (applied only when the appended history
exceeds 50) equals an unconditional drop of the overflow. -/
theorem hist_trunc_eq_drop (l : List Loc) (x : Loc) :
    (if (l ++ [x]).length > 50 then
        (l ++ [x]).drop ((l ++ [x]).length - 50)
     else l ++ [x]) =
      (l ++ [x]).drop (l.length + 1 - 50) := by
  rcases le_or_lt (l.length + 1) 50 with hle | hlt
  · rw [if_neg (by simp; omega)]
    rw [show l.length + 1 - 50 = 0 by omega, List.drop_zero]
  · rw [if_pos (by simp; omega)]
    simp

/-- Length of the truncated history: one more than before, capped at 50. -/
theorem hist_drop_length (l : List Loc) (x : Loc) :
    ((l ++ [x]).drop (l.length + 1 - 50)).length = min (l.length + 1) 50 := by
  simp only [List.length_drop, List.length_append, List.length_singleton]
  omega

/-- C8: an accepted `reportLocation` call requires the order's status to be
`assigned`, `picked_up` or `en_route`; it replaces the last-known location
with the new sample and replaces the history by the old history plus the
new sample with the oldest entries beyond the 50-cap dropped, in the same
step; the resulting history length is `min (old + 1) 50`, hence at most 50
after the call whatever the prior state (so repeated accepted calls keep it
at most 50). -/
theorem claim_C8_location_history_bounded (u : User) (oid : String) (lat lng : ℚ)
    (acc : Option ℚ) (now : ℤ) (s s' : SysState) (o : Order)
    (hfound : findOrder s oid = some o)
    (h : driver_location_ping u oid lat lng acc now s = .ok s') :
    o.status ∈ ["assigned", "picked_up", "en_route"] ∧
    ∃ o', findOrder s' oid = some o' ∧
      o'.driver_last_location = some (Loc.mk lat lng acc now) ∧
      o'.driver_location_history =
        (o.driver_location_history ++ [(Loc.mk lat lng acc now)]).drop
          (o.driver_location_history.length + 1 - 50) ∧
      o'.driver_location_history.length =
        min (o.driver_location_history.length + 1) 50 ∧
      o'.driver_location_history.length ≤ 50 := by
  have hoid : o.order_id = oid := findOrder_id s oid o hfound
  simp only [driver_location_ping, hfound] at h
  rw [hist_trunc_eq_drop] at h
  repeat' (split at h)
  all_goals try exact OpResult.noConfusion h
  simp only [OpResult.ok.injEq] at h
  subst h
  refine ⟨by simp only [List.mem_cons, List.not_mem_nil, or_false] at *; tauto, _,
    by rw [← hoid]; exact findOrder_setOrder_self _ _, rfl, rfl, ?_, ?_⟩
  · exact hist_drop_length o.driver_location_history (Loc.mk lat lng acc now)
  · exact le_trans
      (le_of_eq (hist_drop_length o.driver_location_history (Loc.mk lat lng acc now)))
      (by omega)

/-- `setUserSt` leaves the driver store untouched. -/
theorem findDriver_setUserSt (s : SysState) (u : User) (did : String) :
    findDriver (setUserSt s u) did = findDriver s did := by
  unfold findDriver
  rw [setUserSt_drivers]

/-- C9: every order built by `createOrder` has `delivery_type` fixed to
`hand_to_customer` (the request model exposes no way to choose
`leave_at_door`); consequently, for such orders `completeDelivery` ignores
the photo argument entirely (the leave-at-door branch is unreachable) and
succeeds only with an explicit `handed_to_customer = true`. -/
theorem claim_C9_delivery_type_fixed :
    (∀ (u : User) (rid : String) (fs pf df : ℚ) (oid : String) (now : ℤ)
        (s s' : SysState),
      create_order u rid fs pf df oid now s = .ok s' →
      (findOrder s' oid).map Order.delivery_type = some "hand_to_customer") ∧
    (∀ (u : User) (oid rdid : String) (photo : Option String)
        (handed : Option Bool) (now : ℤ) (s : SysState) (o : Order),
      findOrder s oid = some o → o.delivery_type = "hand_to_customer" →
      complete_delivery u oid rdid photo handed now s =
        complete_delivery u oid rdid none handed now s) ∧
    (∀ (u : User) (oid rdid : String) (photo : Option String)
        (handed : Option Bool) (now : ℤ) (s : SysState) (o : Order)
        (s1 : SysState),
      findOrder s oid = some o → o.delivery_type = "hand_to_customer" →
      complete_delivery u oid rdid photo handed now s = .ok s1 →
      handed = some true) := by
  refine ⟨?_, ?_, ?_⟩
  · intro u rid fs pf df oid now s s' h
    simp only [create_order] at h
    repeat' (split at h)
    all_goals try exact OpResult.noConfusion h
    simp only [OpResult.ok.injEq] at h
    subst h
    rw [findOrder_setOrder_self]
    rfl
  · intro u oid rdid photo handed now s o hfound hdt
    simp only [complete_delivery, hfound, hdt]
    simp
  · intro u oid rdid photo handed now s o s1 hfound hdt h
    simp only [complete_delivery, hfound] at h
    repeat' (split at h)
    all_goals try exact OpResult.noConfusion h
    all_goals simp_all

/-- Witness for C9 on the concrete `hand_to_customer` order: the photo
argument is ignored, and a successful completion had `handed = some true`. -/
theorem claim_C9_witness :
    complete_delivery drvUser "ORD-1" "DRV-1" (some "unused-photo") (some true) 9
        stEnRoute =
      complete_delivery drvUser "ORD-1" "DRV-1" none (some true) 9 stEnRoute ∧
    (some true : Option Bool) = some true :=
  ⟨claim_C9_delivery_type_fixed.2.1 drvUser "ORD-1" "DRV-1" (some "unused-photo")
      (some true) 9 stEnRoute orderEnRoute (by decide) (by decide),
   claim_C9_delivery_type_fixed.2.2 drvUser "ORD-1" "DRV-1" none (some true) 9
      stEnRoute orderEnRoute
      (complete_delivery drvUser "ORD-1" "DRV-1" none (some true) 9 stEnRoute).state
      (by decide) (by decide) (by decide)⟩

/-- C10: a successful `registerDriver` not only stores the new driver
record but also mutates the user store: it creates a linked user account
with role `driver`, bound to the fresh driver id, whose email is derived
from the driver id (`<driver_id lowercased>@drivers.cape.co`) and whose
password is the fixed MVP default `driver123`. -/
theorem claim_C10_register_driver_creates_user (u : User)
    (name phone did uid : String) (now : ℤ) (s s' : SysState)
    (h : register_driver u name phone did uid now s = .ok s') :
    findDriver s' did =
      some { driver_id := did, name := pyStrip name, phone := pyStrip phone,
             is_available := true, current_order_id := none, created_at := now,
             status_timestamps := [("created", now)] } ∧
    findUser s' uid =
      some { user_id := uid
             email := pyStrip (pyLower (pyLower did ++ "@drivers.cape.co"))
             password_hash := hashPassword "driver123"
             role := "driver"
             driver_id := some did
             created_at := now } := by
  simp only [register_driver] at h
  repeat' (split at h)
  all_goals try exact OpResult.noConfusion h
  simp only [OpResult.ok.injEq] at h
  subst h
  constructor
  · rw [create_user, findDriver_setUserSt]
    exact findDriver_setDriverSt_self _ _
  · rw [create_user]
    exact findUser_setUserSt_self _ _

/-- Witness for C10 at a concrete registration. -/
theorem claim_C10_witness :
    findDriver
        (register_driver adminUser "Ama" "0501234567" "DRV-9" "USR-9" 4
          { orders := [], drivers := [], users := [] }).state "DRV-9" =
      some { driver_id := "DRV-9", name := pyStrip "Ama", phone := pyStrip "0501234567",
             is_available := true, current_order_id := none, created_at := 4,
             status_timestamps := [("created", 4)] } ∧
    findUser
        (register_driver adminUser "Ama" "0501234567" "DRV-9" "USR-9" 4
          { orders := [], drivers := [], users := [] }).state "USR-9" =
      some { user_id := "USR-9"
             email := pyStrip (pyLower (pyLower "DRV-9" ++ "@drivers.cape.co"))
             password_hash := hashPassword "driver123"
             role := "driver"
             driver_id := some "DRV-9"
             created_at := 4 } :=
  claim_C10_register_driver_creates_user adminUser "Ama" "0501234567" "DRV-9" "USR-9" 4
    { orders := [], drivers := [], users := [] } _ (by decide)

/-- Rounding a whole number of cents is the identity. -/
theorem roundHalfEven_natCast (c : ℕ) : roundHalfEven (c : ℚ) = c := by
  unfold roundHalfEven
  rw [ratFloor_eq_intFloor]
  rw [show ((c : ℚ)) = ((c : ℤ) : ℚ) by push_cast; ring]
  rw [Int.floor_intCast]
  norm_num

/-- `roundHalfEven` on an integer plus a non-tie fraction in `[0, 1)`. -/
theorem roundHalfEven_int_add_frac (n : ℤ) (x : ℚ) (h0 : 0 ≤ x) (h1 : x < 1)
    (hx : x ≠ 1/2) :
    roundHalfEven ((n : ℚ) + x) = n + (if x < 1/2 then 0 else 1) := by
  have hfl : ((n : ℚ) + x).floor = n := by
    rw [ratFloor_eq_intFloor, add_comm, Int.floor_add_int,
      Int.floor_eq_zero_iff.mpr (by constructor <;> simpa), zero_add]
  have hfrac : (n : ℚ) + x - (n : ℚ) = x := by ring
  simp only [roundHalfEven]
  rw [hfl, hfrac]
  by_cases hlt : x < 1/2
  · rw [if_pos hlt, if_pos hlt, add_zero]
  · have hgt : 1/2 < x := lt_of_le_of_ne (not_lt.mp hlt) (Ne.symm hx)
    rw [if_neg hlt, if_pos hgt, if_neg hlt]

/-- Splitting a whole number of cents 60/40 with banker's rounding loses
nothing: the fractional parts of `3c/5` and `2c/5` are never ties and the
two roundings always cancel. -/
theorem split_cents (c : ℕ) :
    roundHalfEven (3 * (c : ℚ) / 5) + roundHalfEven (2 * (c : ℚ) / 5) = c := by
  obtain ⟨q, r, hr, rfl⟩ : ∃ q r, r < 5 ∧ c = 5 * q + r :=
    ⟨c / 5, c % 5, Nat.mod_lt _ (by norm_num), by omega⟩
  interval_cases r
  · rw [show 3 * ((5*q+0 : ℕ) : ℚ) / 5 = ((3*(q:ℤ) : ℤ) : ℚ) + 0 by push_cast; ring,
        show 2 * ((5*q+0 : ℕ) : ℚ) / 5 = ((2*(q:ℤ) : ℤ) : ℚ) + 0 by push_cast; ring,
        roundHalfEven_int_add_frac _ _ (by norm_num) (by norm_num) (by norm_num),
        roundHalfEven_int_add_frac _ _ (by norm_num) (by norm_num) (by norm_num)]
    push_cast
    norm_num
    try ring
  · rw [show 3 * ((5*q+1 : ℕ) : ℚ) / 5 = ((3*(q:ℤ) : ℤ) : ℚ) + 3/5 by push_cast; ring,
        show 2 * ((5*q+1 : ℕ) : ℚ) / 5 = ((2*(q:ℤ) : ℤ) : ℚ) + 2/5 by push_cast; ring,
        roundHalfEven_int_add_frac _ _ (by norm_num) (by norm_num) (by norm_num),
        roundHalfEven_int_add_frac _ _ (by norm_num) (by norm_num) (by norm_num)]
    push_cast
    norm_num
    try ring
  · rw [show 3 * ((5*q+2 : ℕ) : ℚ) / 5 = ((3*(q:ℤ)+1 : ℤ) : ℚ) + 1/5 by push_cast; ring,
        show 2 * ((5*q+2 : ℕ) : ℚ) / 5 = ((2*(q:ℤ) : ℤ) : ℚ) + 4/5 by push_cast; ring,
        roundHalfEven_int_add_frac _ _ (by norm_num) (by norm_num) (by norm_num),
        roundHalfEven_int_add_frac _ _ (by norm_num) (by norm_num) (by norm_num)]
    push_cast
    norm_num
    try ring
  · rw [show 3 * ((5*q+3 : ℕ) : ℚ) / 5 = ((3*(q:ℤ)+1 : ℤ) : ℚ) + 4/5 by push_cast; ring,
        show 2 * ((5*q+3 : ℕ) : ℚ) / 5 = ((2*(q:ℤ)+1 : ℤ) : ℚ) + 1/5 by push_cast; ring,
        roundHalfEven_int_add_frac _ _ (by norm_num) (by norm_num) (by norm_num),
        roundHalfEven_int_add_frac _ _ (by norm_num) (by norm_num) (by norm_num)]
    push_cast
    norm_num
    ring
  · rw [show 3 * ((5*q+4 : ℕ) : ℚ) / 5 = ((3*(q:ℤ)+2 : ℤ) : ℚ) + 2/5 by push_cast; ring,
        show 2 * ((5*q+4 : ℕ) : ℚ) / 5 = ((2*(q:ℤ)+1 : ℤ) : ℚ) + 3/5 by push_cast; ring,
        roundHalfEven_int_add_frac _ _ (by norm_num) (by norm_num) (by norm_num),
        roundHalfEven_int_add_frac _ _ (by norm_num) (by norm_num) (by norm_num)]
    push_cast
    norm_num
    ring

/-- The pricing identity the spec intends, proved of the exact-decimal
idealization `calculate_quote`: for fees given as whole numbers of cents,
`platform_net + driver_base = round2 margin_pool` exactly and
`driver_base = margin_pool - platform_net` — i.e. the spec's correction
step is exactly what exact decimal arithmetic gives for free. The
program's binary64 arithmetic violates this identity (see
`claim_C3_float_failure`). -/
theorem split_reconstitutes_pool_exact_decimal (fs : ℚ) (p d : ℕ) (hfs : 0 < fs) :
    (calculate_quote fs ((p : ℚ) / 100) ((d : ℚ) / 100)).platform_net +
        (calculate_quote fs ((p : ℚ) / 100) ((d : ℚ) / 100)).driver_base =
      round2 ((p : ℚ) / 100 + (d : ℚ) / 100) ∧
    (calculate_quote fs ((p : ℚ) / 100) ((d : ℚ) / 100)).margin_pool =
      (p : ℚ) / 100 + (d : ℚ) / 100 ∧
    (calculate_quote fs ((p : ℚ) / 100) ((d : ℚ) / 100)).platform_net +
        (calculate_quote fs ((p : ℚ) / 100) ((d : ℚ) / 100)).driver_base =
      (calculate_quote fs ((p : ℚ) / 100) ((d : ℚ) / 100)).margin_pool ∧
    (calculate_quote fs ((p : ℚ) / 100) ((d : ℚ) / 100)).driver_base =
      (calculate_quote fs ((p : ℚ) / 100) ((d : ℚ) / 100)).margin_pool -
        (calculate_quote fs ((p : ℚ) / 100) ((d : ℚ) / 100)).platform_net := by
  have e1 : ((p : ℚ)/100 + (d : ℚ)/100) * (60/100) * 100 = 3 * ((p + d : ℕ) : ℚ) / 5 := by
    push_cast; ring
  have e2 : ((p : ℚ)/100 + (d : ℚ)/100) * (40/100) * 100 = 2 * ((p + d : ℕ) : ℚ) / 5 := by
    push_cast; ring
  have em : ((p : ℚ)/100 + (d : ℚ)/100) * 100 = ((p + d : ℕ) : ℚ) := by
    push_cast; ring
  have hsum : (↑(roundHalfEven (3 * ((p + d : ℕ) : ℚ) / 5)) : ℚ) / 100 +
      (↑(roundHalfEven (2 * ((p + d : ℕ) : ℚ) / 5)) : ℚ) / 100 =
        ((p + d : ℕ) : ℚ) / 100 := by
    rw [div_add_div_same]
    rw [show (↑(roundHalfEven (3 * ((p + d : ℕ) : ℚ) / 5)) : ℚ) +
          ↑(roundHalfEven (2 * ((p + d : ℕ) : ℚ) / 5)) =
        ((roundHalfEven (3 * ((p + d : ℕ) : ℚ) / 5) +
          roundHalfEven (2 * ((p + d : ℕ) : ℚ) / 5) : ℤ) : ℚ) by push_cast; ring]
    rw [split_cents (p + d)]
    push_cast
    ring
  have em' : (((p + d : ℕ) : ℤ) : ℚ) = ((p + d : ℕ) : ℚ) := by push_cast; ring
  have hc : ((p : ℚ) + (d : ℚ)) = ((p + d : ℕ) : ℚ) := by push_cast; ring
  simp only [calculate_quote, round2, e1, e2, em, roundHalfEven_natCast, em']
  refine ⟨hsum, by rw [div_add_div_same, hc], hsum, by linarith [hsum]⟩

/-- Characterise `flPos` from a bracketing of the binade and the rounded
53-bit significand. -/
theorem flPos_eq (a : ℚ) (e m : ℤ)
    (hlow : ((2 : ℕ) : ℚ) ^ e ≤ a) (hhigh : a < ((2 : ℕ) : ℚ) ^ (e + 1))
    (hm : roundHalfEven (a * (2 : ℚ) ^ ((52 : ℤ) - e)) = m) :
    flPos a = (m : ℚ) * (2 : ℚ) ^ (e - (52 : ℤ)) := by
  have hpos : 0 < a := lt_of_lt_of_le (zpow_pos (by norm_num) e) hlow
  have h1 : e ≤ Int.log 2 a := (Int.zpow_le_iff_le_log (by norm_num) hpos).mp hlow
  have h2 : Int.log 2 a < e + 1 := (Int.lt_zpow_iff_log_lt (by norm_num) hpos).mp hhigh
  have hlog : Int.log 2 a = e := by omega
  simp only [flPos, hlog, hm]

/-- `fl` on a positive rational via `flPos_eq`. -/
theorem fl_eq_of (a : ℚ) (e m : ℤ) (hpos : 0 < a)
    (hlow : ((2 : ℕ) : ℚ) ^ e ≤ a) (hhigh : a < ((2 : ℕ) : ℚ) ^ (e + 1))
    (hm : roundHalfEven (a * (2 : ℚ) ^ ((52 : ℤ) - e)) = m) :
    fl a = (m : ℚ) * (2 : ℚ) ^ (e - (52 : ℤ)) := by
  rw [fl, if_neg (ne_of_gt hpos), if_neg (not_lt.mpr hpos.le)]
  exact flPos_eq a e m hlow hhigh hm

theorem fl_val_zero : fl (0 : ℚ) = 0 := by simp [fl]

/-- The double nearest 0.11 (`0x1.c28f5c28f5c29p-4`). -/
theorem fl_val_011 : fl (11/100 : ℚ) = 7926335344172073 * (2:ℚ)^(-56 : ℤ) := by
  rw [fl_eq_of (11/100 : ℚ) (-4) 7926335344172073 (by norm_num) (by norm_num) (by norm_num)
      (by simp only [roundHalfEven, ratFloor_eq_intFloor]; norm_num)]
  norm_num

/-- The double nearest 0.60. -/
theorem fl_val_06 : fl (60/100 : ℚ) = 5404319552844595 * (2:ℚ)^(-53 : ℤ) := by
  rw [fl_eq_of (60/100 : ℚ) (-1) 5404319552844595 (by norm_num) (by norm_num) (by norm_num)
      (by simp only [roundHalfEven, ratFloor_eq_intFloor]; norm_num)]
  norm_num

/-- The double nearest 0.40. -/
theorem fl_val_04 : fl (40/100 : ℚ) = 7205759403792794 * (2:ℚ)^(-54 : ℤ) := by
  rw [fl_eq_of (40/100 : ℚ) (-2) 7205759403792794 (by norm_num) (by norm_num) (by norm_num)
      (by simp only [roundHalfEven, ratFloor_eq_intFloor]; norm_num)]
  norm_num

/-- `margin_pool = fl(fl(0.11) + fl(0.00))` is exact: adding zero changes
nothing and the operand is already a double. -/
theorem fl_val_mp :
    fl (7926335344172073 * (2:ℚ)^(-56 : ℤ) + fl 0) = 7926335344172073 * (2:ℚ)^(-56 : ℤ) := by
  rw [fl_val_zero, add_zero]
  rw [fl_eq_of _ (-4) 7926335344172073 (by norm_num) (by norm_num) (by norm_num)
      (by simp only [roundHalfEven, ratFloor_eq_intFloor]; norm_num)]
  norm_num

/-- The correctly rounded double product `fl(0.11) * fl(0.60)`. -/
theorem fl_val_t1 :
    fl ((7926335344172073 * (2:ℚ)^(-56 : ℤ)) * (5404319552844595 * (2:ℚ)^(-53 : ℤ))) =
      4755801206503244 * (2:ℚ)^(-56 : ℤ) := by
  rw [fl_eq_of _ (-4) 4755801206503244 (by norm_num) (by norm_num) (by norm_num)
      (by simp only [roundHalfEven, ratFloor_eq_intFloor]; norm_num)]
  norm_num

/-- That product is about 0.066000000000000000054, so `round(_, 2)` gives
0.07. -/
theorem round2_val_t1 : round2 (4755801206503244 * (2:ℚ)^(-56 : ℤ)) = 7/100 := by
  simp only [round2, roundHalfEven, ratFloor_eq_intFloor]
  norm_num

/-- The double nearest 0.07. -/
theorem fl_val_007 : fl (7/100 : ℚ) = 5044031582654956 * (2:ℚ)^(-56 : ℤ) := by
  rw [fl_eq_of (7/100 : ℚ) (-4) 5044031582654956 (by norm_num) (by norm_num) (by norm_num)
      (by simp only [roundHalfEven, ratFloor_eq_intFloor]; norm_num)]
  norm_num

/-- The correctly rounded double product `fl(0.11) * fl(0.40)`. -/
theorem fl_val_t2 :
    fl ((7926335344172073 * (2:ℚ)^(-56 : ℤ)) * (7205759403792794 * (2:ℚ)^(-54 : ℤ))) =
      6341068275337659 * (2:ℚ)^(-57 : ℤ) := by
  rw [fl_eq_of _ (-5) 6341068275337659 (by norm_num) (by norm_num) (by norm_num)
      (by simp only [roundHalfEven, ratFloor_eq_intFloor]; norm_num)]
  norm_num

/-- That product is about 0.044000000000000000058, so `round(_, 2)` gives
0.04. -/
theorem round2_val_t2 : round2 (6341068275337659 * (2:ℚ)^(-57 : ℤ)) = 4/100 := by
  simp only [round2, roundHalfEven, ratFloor_eq_intFloor]
  norm_num

/-- The double nearest 0.04. -/
theorem fl_val_004 : fl (4/100 : ℚ) = 5764607523034235 * (2:ℚ)^(-57 : ℤ) := by
  rw [fl_eq_of (4/100 : ℚ) (-5) 5764607523034235 (by norm_num) (by norm_num) (by norm_num)
      (by simp only [roundHalfEven, ratFloor_eq_intFloor]; norm_num)]
  norm_num

/-- The float sum `fl(0.07) + fl(0.04)`: the exact sum sits exactly halfway
between two doubles and ties to even, landing one ulp above the double
nearest 0.11 — this is Python's `0.07 + 0.04 = 0.11000000000000001`. -/
theorem fl_val_sum :
    fl (5044031582654956 * (2:ℚ)^(-56 : ℤ) + 5764607523034235 * (2:ℚ)^(-57 : ℤ)) =
      7926335344172074 * (2:ℚ)^(-56 : ℤ) := by
  rw [fl_eq_of _ (-4) 7926335344172074 (by norm_num) (by norm_num) (by norm_num)
      (by simp only [roundHalfEven, ratFloor_eq_intFloor]; norm_num)]
  norm_num

/-- `round(margin_pool, 2)` on the double nearest 0.11 gives back 0.11. -/
theorem round2_val_mp : round2 (7926335344172073 * (2:ℚ)^(-56 : ℤ)) = 11/100 := by
  simp only [round2, roundHalfEven, ratFloor_eq_intFloor]
  norm_num

/-- C3 (code bug): under the source's actual IEEE-754 binary64 arithmetic
the claimed identity `platform_net + driver_base == round(margin_pool, 2)`
fails at the valid two-decimal input `food_subtotal = 50.00`,
`platform_fee = 0.11`, `delivery_fee = 0.00`: the quote's
`platform_net` is the double 0.07, `driver_base` the double 0.04,
`margin_pool` the double 0.11, yet their float sum (and even the exact sum
of the two doubles) differs from the double 0.11 by one ulp — because the
spec's correction step `driver_base = margin_pool - platform_net` is
absent from the code. -/
theorem claim_C3_float_failure :
    (calculate_quote_float 50 (11/100) 0).platform_net =
      5044031582654956 * (2:ℚ)^(-56 : ℤ) ∧
    (calculate_quote_float 50 (11/100) 0).driver_base =
      5764607523034235 * (2:ℚ)^(-57 : ℤ) ∧
    (calculate_quote_float 50 (11/100) 0).margin_pool =
      7926335344172073 * (2:ℚ)^(-56 : ℤ) ∧
    fl ((calculate_quote_float 50 (11/100) 0).platform_net +
          (calculate_quote_float 50 (11/100) 0).driver_base) ≠
      (calculate_quote_float 50 (11/100) 0).margin_pool ∧
    (calculate_quote_float 50 (11/100) 0).platform_net +
        (calculate_quote_float 50 (11/100) 0).driver_base ≠
      (calculate_quote_float 50 (11/100) 0).margin_pool := by
  have hpn : (calculate_quote_float 50 (11/100) 0).platform_net =
      5044031582654956 * (2:ℚ)^(-56 : ℤ) := by
    simp only [calculate_quote_float, fl_val_011, fl_val_mp, fl_val_06, fl_val_t1,
      round2f, round2_val_t1, fl_val_007]
  have hdb : (calculate_quote_float 50 (11/100) 0).driver_base =
      5764607523034235 * (2:ℚ)^(-57 : ℤ) := by
    simp only [calculate_quote_float, fl_val_011, fl_val_mp, fl_val_04, fl_val_t2,
      round2f, round2_val_t2, fl_val_004]
  have hmp : (calculate_quote_float 50 (11/100) 0).margin_pool =
      7926335344172073 * (2:ℚ)^(-56 : ℤ) := by
    simp only [calculate_quote_float, fl_val_011, fl_val_mp, round2f, round2_val_mp]
  refine ⟨hpn, hdb, hmp, ?_, ?_⟩
  · rw [hpn, hdb, hmp, fl_val_sum]
    norm_num
  · rw [hpn, hdb, hmp]
    norm_num

/-- Witness for C8: a ping on the concrete en-route order. -/
theorem claim_C8_witness :
    orderEnRoute.status ∈ ["assigned", "picked_up", "en_route"] ∧
    ∃ o', findOrder
        (driver_location_ping drvUser "ORD-1" 5 6 none 7 stEnRoute).state
        "ORD-1" = some o' ∧
      o'.driver_last_location = some (Loc.mk 5 6 none 7) ∧
      o'.driver_location_history =
        (orderEnRoute.driver_location_history ++ [(Loc.mk 5 6 none 7)]).drop
          (orderEnRoute.driver_location_history.length + 1 - 50) ∧
      o'.driver_location_history.length =
        min (orderEnRoute.driver_location_history.length + 1) 50 ∧
      o'.driver_location_history.length ≤ 50 :=
  claim_C8_location_history_bounded drvUser "ORD-1" 5 6 none 7 stEnRoute _
    orderEnRoute (by decide) (by decide)

end CapeCoast
